import Mathlib

/-!
Verification development for the Attendance_Backend repository.

The JavaScript source is shallowly embedded in Lean:
* persisted documents become Lean structures (timestamps are `Int`
  milliseconds, JS numbers used in arithmetic become `ℚ`);
* Mongo operations (`findOne`, `updateOne`, `create`, `save`) become
  explicit pure list/state passing in document-insertion order;
* bcrypt, sha256 and the floating-point haversine evaluator are external
  collaborators, so they enter the model as function parameters or as
  the boolean result of the comparison they produce;
* JS truthiness is modelled explicitly (`0`, `""`, `null` are falsy).
-/

namespace AttendanceBackend

/-- A registered device sub-document (models `deviceSchema` in
`src/models/User.js`). -/
structure Device where
  deviceId : String
  deviceName : String
  platform : String
  brand : String
  model : String
  addedAt : Int
  lastUsedAt : Int
  deriving Repr, DecidableEq

/-- The `deviceInfo` payload sent by the client; every field may be
absent, and `deviceId` may additionally be the (falsy) empty string. -/
structure DeviceInfo where
  deviceId : Option String
  deviceName : Option String := none
  platform : Option String := none
  brand : Option String := none
  model : Option String := none
  deriving Repr, DecidableEq

/-- The user document (`src/models/User.js` schema fields relevant to the
auth core). `lockUntil` is a nullable Unix-ms number, as in the schema. -/
structure User where
  name : String
  email : String
  password : String
  role : String := "employee"
  isActive : Bool := true
  loginAttempts : Nat := 0
  lockUntil : Option Int := none
  lastLoginAt : Option Int := none
  devices : List Device := []
  passwordChangedAt : Option Int := none
  passwordResetToken : Option String := none
  passwordResetExpires : Option Int := none
  deriving Repr, DecidableEq

/-- Constant `MAX_DEVICES` in `src/models/User.js`. -/
def MAX_DEVICES : Nat := 3

/-- Constant `MAX_LOGIN_ATTEMPTS` in `src/models/User.js`. -/
def MAX_LOGIN_ATTEMPTS : Nat := 5

/-- Constant `LOCK_DURATION_MS` in `src/models/User.js` (30 minutes). -/
def LOCK_DURATION_MS : Int := 30 * 60 * 1000

/-- The `isLocked` virtual: `!!(this.lockUntil && this.lockUntil > Date.now())`.
A stored `lockUntil` of `0` is falsy in JS, hence the `t ≠ 0` conjunct. -/
def User.isLocked (u : User) (now : Int) : Bool :=
  match u.lockUntil with
  | none => false
  | some t => decide (t ≠ 0) && decide (now < t)

/-- Method `userSchema.methods.matchPassword`. The bcrypt comparison itself is an
external collaborator, so its boolean outcome `isMatch` is a parameter; the
method's own logic (the single atomic `updateOne` in each branch) is
embedded faithfully. Returns the updated persisted user and `isMatch`. -/
def User.matchPassword (u : User) (isMatch : Bool) (now : Int) : User × Bool :=
  if isMatch then
    ({ u with loginAttempts := 0, lockUntil := none, lastLoginAt := some now }, true)
  else
    let newAttempts := u.loginAttempts + 1
    let shouldLock := MAX_LOGIN_ATTEMPTS ≤ newAttempts
    ({ u with
        loginAttempts := newAttempts,
        lockUntil := if shouldLock then some (now + LOCK_DURATION_MS) else none },
      false)

/-- JS `parseInt(a / b, 10)` on integers with `b > 0`: the quotient
truncated toward zero. -/
def jsTruncDiv (a b : Int) : Int := if 0 ≤ a then a / b else -((-a) / b)

/-- Method `userSchema.methods.changedPasswordAfter`: when `passwordChangedAt` is
set, compare the JWT issue time (seconds) against
`parseInt(passwordChangedAt.getTime() / 1000, 10)`, i.e. the change time in
milliseconds truncated toward zero to whole seconds. -/
def User.changedPasswordAfter (u : User) (jwtTimestamp : Int) : Bool :=
  match u.passwordChangedAt with
  | some pca => decide (jwtTimestamp < jsTruncDiv pca 1000)
  | none => false

/-- JS `s || d` for strings: the empty string falls back to the default. -/
def orDefault (s : Option String) (d : String) : String :=
  match s with
  | some v => if v = "" then d else v
  | none => d

/-- The `deviceInfo && deviceInfo.deviceId` truthiness test from
`registerDevice`. -/
def hasDeviceId (info : Option DeviceInfo) : Bool :=
  match info with
  | none => false
  | some di =>
    match di.deviceId with
    | none => false
    | some id => decide (id ≠ "")

/-- The positional `$` update
`{'devices.$.lastUsedAt': new Date()}` refreshes the first list entry whose
`deviceId` matches. -/
def updateFirstLastUsed (id : String) (now : Int) : List Device → List Device
  | [] => []
  | d :: ds =>
    if d.deviceId = id then { d with lastUsedAt := now } :: ds
    else d :: updateFirstLastUsed id now ds

/-- Result object of `registerDevice`. -/
structure RegisterResult where
  isNew : Bool
  limitReached : Bool
  deriving Repr, DecidableEq

/-- Method `userSchema.methods.registerDevice`: no-op on a missing/empty
`deviceId`; refresh `lastUsedAt` for an already-registered id; refuse a new
id when `MAX_DEVICES` entries exist; otherwise append a new entry. -/
def User.registerDevice (u : User) (info : Option DeviceInfo) (now : Int) :
    User × RegisterResult :=
  match info with
  | none => (u, ⟨false, false⟩)
  | some di =>
    match di.deviceId with
    | none => (u, ⟨false, false⟩)
    | some id =>
      if id = "" then (u, ⟨false, false⟩)
      else if u.devices.any (fun d => d.deviceId = id) then
        ({ u with devices := updateFirstLastUsed id now u.devices }, ⟨false, false⟩)
      else if MAX_DEVICES ≤ u.devices.length then
        (u, ⟨true, true⟩)
      else
        ({ u with
            devices := u.devices ++
              [{ deviceId := id,
                 deviceName := orDefault di.deviceName "Unknown Device",
                 platform := orDefault di.platform "unknown",
                 brand := orDefault di.brand "",
                 model := orDefault di.model "",
                 addedAt := now,
                 lastUsedAt := now }] },
          ⟨true, false⟩)

/-- JS `Math.ceil(a / b)` for integer `a` and positive integer `b`. -/
def jsCeilDiv (a b : Int) : Int := -((-a).ediv b)

/-- Outcome of `loginUser` (`src/controllers/authController.js`), one
constructor per distinct response the controller can send on the embedded
paths. -/
inductive LoginOutcome where
  | missingCredentials
  | deviceInfoRequired
  | invalidUser
  | accountInactive
  | accountLocked (retryAfterMinutes : Int)
  | invalidCredentials (attemptsLeft : Nat)
  | maxDevicesReached (registeredDevices : List Device)
  | loginOk
  deriving Repr, DecidableEq

/-- Controller `loginUser` from `src/controllers/authController.js`. `user` is the
result of the email lookup, `hasEmail`/`hasPassword` the truthiness of the
request credentials and `pwMatches` the external bcrypt comparison result
consumed by `matchPassword`. Returns the persisted user state after the
call together with the response outcome. -/
def loginUser (user : Option User) (hasEmail hasPassword : Bool)
    (deviceInfo : Option DeviceInfo) (pwMatches : Bool) (now : Int) :
    Option User × LoginOutcome :=
  if !hasEmail || !hasPassword then (user, .missingCredentials)
  else if !hasDeviceId deviceInfo then (user, .deviceInfoRequired)
  else
    match user with
    | none => (none, .invalidUser)
    | some u =>
      if !u.isActive then (some u, .accountInactive)
      else if u.isLocked now then
        (some u, .accountLocked (jsCeilDiv ((u.lockUntil.getD 0) - now) 60000))
      else
        let (u1, isMatch) := u.matchPassword pwMatches now
        if !isMatch then
          (some u1, .invalidCredentials (MAX_LOGIN_ATTEMPTS - u1.loginAttempts))
        else
          let (u2, r) := u1.registerDevice deviceInfo now
          if r.limitReached then (some u2, .maxDevicesReached u2.devices)
          else (some u2, .loginOk)

/-- Outcome of the `protect` middleware once the token signature and expiry
were accepted by the JWT library and the token's user id was looked up
(`src/middleware/authMiddleware.js`, steps 3-7). -/
inductive ProtectOutcome where
  | userNotFound
  | accountInactive
  | accountLocked (retryAfterMinutes : Int)
  | passwordChanged
  | authorized
  deriving Repr, DecidableEq

/-- Steps 3-7 of `protect`: account existence, active flag, lock check,
then the password-change revalidation `decoded.iat &&
user.changedPasswordAfter(decoded.iat)` (`iat = 0` is falsy in JS). -/
def protectChecks (user : Option User) (iat : Int) (now : Int) : ProtectOutcome :=
  match user with
  | none => .userNotFound
  | some u =>
    if !u.isActive then .accountInactive
    else if u.isLocked now then
      .accountLocked (jsCeilDiv ((u.lockUntil.getD 0) - now) 60000)
    else if decide (iat ≠ 0) && u.changedPasswordAfter iat then .passwordChanged
    else .authorized

/-- Lifetime constant: `createPasswordResetToken` sets the expiry
15 minutes out. -/
def RESET_TOKEN_LIFETIME_MS : Int := 15 * 60 * 1000

/-- Method `userSchema.methods.createPasswordResetToken`: store the sha256 hash of
the fresh raw token (hashing is the external `hashTok` collaborator) and an
expiry 15 minutes from now; the raw token itself is only returned. -/
def User.createPasswordResetToken (hashTok : String → String) (u : User)
    (rawToken : String) (now : Int) : User :=
  { u with
      passwordResetToken := some (hashTok rawToken),
      passwordResetExpires := some (now + RESET_TOKEN_LIFETIME_MS) }

/-- The pre-save hook of `userSchema`: when the password field was
modified, replace it by its bcrypt hash (`hashPw`, the external salted
hashing collaborator) and stamp `passwordChangedAt`. This single hashing
path serves both account creation and every password-change path. -/
def preSaveHashPassword (hashPw : String → String) (u : User)
    (rawPassword : String) (now : Int) : User :=
  { u with password := hashPw rawPassword, passwordChangedAt := some now }

/-- The Mongo condition of `resetPassword`'s `findOne`: stored reset-token
hash equals the hash of the supplied token and `passwordResetExpires` is
strictly in the future (a null expiry never satisfies `$gt`). -/
def resetTokenMatches (h : String) (now : Int) (u : User) : Bool :=
  decide (u.passwordResetToken = some h) &&
    (match u.passwordResetExpires with
     | some e => decide (now < e)
     | none => false)

/-- Lookup `findOne` on the reset-token hash with an unexpired expiry, over
the user collection in insertion order. -/
def findResetUser (users : List User) (h : String) (now : Int) : Option User :=
  users.find? (resetTokenMatches h now)

/-- The new state of the matched user after a successful `resetPassword`:
new password through the pre-save hashing hook, reset fields cleared,
lockout state cleared. -/
def applyPasswordReset (hashPw : String → String) (u : User)
    (newPassword : String) (now : Int) : User :=
  preSaveHashPassword hashPw
    { u with
        passwordResetToken := none,
        passwordResetExpires := none,
        loginAttempts := 0,
        lockUntil := none }
    newPassword now

/-- Saving (`user.save()`) writes back the single matched document: replace the
first user satisfying the match predicate. -/
def replaceFirstMatching (p : User → Bool) (u' : User) : List User → List User
  | [] => []
  | v :: vs => if p v then u' :: vs else v :: replaceFirstMatching p u' vs

/-- Outcome of `resetPassword` (`src/controllers/authController.js`). -/
inductive ResetOutcome where
  | missingFields
  | weakPassword
  | invalidOrExpiredToken
  | resetOk
  deriving Repr, DecidableEq

/-- Controller `resetPassword`: validate inputs, hash the raw token, look up a user
with a matching unexpired stored hash, then set the new password (hashed by
the pre-save hook), clear the reset fields and the lockout state, and save. -/
def resetPassword (hashTok hashPw : String → String) (users : List User)
    (token newPassword : String) (now : Int) : List User × ResetOutcome :=
  if token = "" || newPassword = "" then (users, .missingFields)
  else if newPassword.length < 6 then (users, .weakPassword)
  else
    let hashedToken := hashTok token
    match findResetUser users hashedToken now with
    | none => (users, .invalidOrExpiredToken)
    | some u =>
      (replaceFirstMatching (resetTokenMatches hashedToken now)
        (applyPasswordReset hashPw u newPassword now) users, .resetOk)

/-- The JSON body of a `forgotPassword` response, restricted to the fields
the controller can set (`resetToken`/`expiresAt` only appear in
development mode). -/
structure ForgotResponse where
  status : Nat
  success : Bool
  message : String
  resetToken : Option String := none
  expiresAt : Option Int := none
  deriving Repr, DecidableEq

/-- The uniform success message of `forgotPassword`. -/
def forgotGenericMessage : String :=
  "If an account with this email exists, a password reset link has been sent."

/-- Controller `forgotPassword` (`src/controllers/authController.js`): always answer
200 with the generic message once an email was supplied, whether or not
the lookup found a user; when a user was found, persist the hashed reset
token, and attach the raw token to the response only when
`NODE_ENV = 'development'`. Returns the response and the saved user (if
any). -/
def forgotPassword (hashTok : String → String) (env : String)
    (email : Option String) (lookup : Option User) (rawToken : String)
    (now : Int) : ForgotResponse × Option User :=
  match email with
  | none =>
    (⟨400, false, "Please provide your email address.", none, none⟩, none)
  | some e =>
    if e = "" then
      (⟨400, false, "Please provide your email address.", none, none⟩, none)
    else
      match lookup with
      | none => (⟨200, true, forgotGenericMessage, none, none⟩, none)
      | some u =>
        let u' := u.createPasswordResetToken hashTok rawToken now
        if env = "development" then
          (⟨200, true, forgotGenericMessage, some rawToken,
              u'.passwordResetExpires⟩, some u')
        else
          (⟨200, true, forgotGenericMessage, none, none⟩, some u')

/-- A GeoJSON point, `coordinates: [longitude, latitude]`. -/
structure GeoPoint where
  lng : ℚ
  lat : ℚ
  deriving Repr, DecidableEq

/-- The `workMode` enum of the attendance schema. -/
inductive WorkMode where
  | office
  | wfh
  deriving Repr, DecidableEq

/-- The `status` enum of the attendance schema. -/
inductive AttStatus where
  | checkedIn
  | checkedOut
  deriving Repr, DecidableEq

/-- An attendance document (the `attendanceSchema` fields the controllers
use). `date` is the `YYYY-MM-DD` string key. -/
structure AttendanceRecord where
  userId : Nat
  workMode : WorkMode
  checkInTime : Int
  checkInLocation : GeoPoint
  checkOutTime : Option Int := none
  checkOutLocation : Option GeoPoint := none
  wfhCheckoutRadius : ℚ := 100
  status : AttStatus := .checkedIn
  workingHours : ℚ := 0
  date : String
  deriving Repr, DecidableEq

/-- An office-location document (`src/models/OfficeLocation.js`). -/
structure OfficeLocation where
  name : String := "Main Office"
  center : GeoPoint
  radius : ℚ := 50
  address : String := ""
  isActive : Bool := true
  deriving Repr, DecidableEq

/-- Lookup `OfficeLocation.findOne` on the active flag, in insertion order. -/
def findActiveOffice (offices : List OfficeLocation) : Option OfficeLocation :=
  offices.find? (·.isActive)

/-- Lookup `Attendance.findOne` on the user and date keys, in insertion order. -/
def findAttendance (store : List AttendanceRecord) (uid : Nat) (date : String) :
    Option AttendanceRecord :=
  store.find? (fun r => decide (r.userId = uid) && decide (r.date = date))

/-- Saving (`attendance.save()`): write back the single matched per-day document. -/
def replaceAttendance (uid : Nat) (date : String) (r' : AttendanceRecord) :
    List AttendanceRecord → List AttendanceRecord
  | [] => []
  | r :: rs =>
    if r.userId = uid ∧ r.date = date then r' :: rs
    else r :: replaceAttendance uid date r' rs

/-- JS `Math.round`: round half toward positive infinity. -/
def jsRound (q : ℚ) : Int := ⌊q + 1 / 2⌋

/-- Helper `calculateWorkingHours` from `src/utils/helpers.js`: millisecond
difference converted to fractional hours, then
`Math.round(hours * 100) / 100`. -/
def calculateWorkingHours (checkInTime checkOutTime : Int) : ℚ :=
  let hours : ℚ := ((checkOutTime - checkInTime : Int) : ℚ) / (1000 * 60 * 60)
  (jsRound (hours * 100) : ℚ) / 100

/-- The Geo-Distance Evaluator (`calculateDistance` in
`src/utils/helpers.js`) is floating-point spherical trigonometry; the
attendance claims quantify over it, so it enters the model as an abstract
pure function `(lat1, lon1, lat2, lon2) ↦ meters`. -/
def DistanceFn : Type := ℚ → ℚ → ℚ → ℚ → ℚ

/-- JS truthiness of a possibly-missing numeric request field
(`!latitude`): absent and `0` are falsy. -/
def truthyNum (q : Option ℚ) : Bool :=
  match q with
  | none => false
  | some v => decide (v ≠ 0)

/-- Message sent by `checkIn` when the existing record is checked-out. -/
def msgAlreadyCompleted : String :=
  "You have already completed your attendance for today."

/-- Message sent by `checkIn` when the existing record is still open. -/
def msgAlreadyCheckedIn : String :=
  "You are already checked in for today."

/-- Outcome of `checkIn` (attendance controller, `src/unnamed/part_007`,
the variant wired in `src/routes/attendanceRoutes.js`). -/
inductive CheckInResult where
  | missingLocation
  | invalidWorkMode
  | alreadyCheckedIn (message : String) (existing : AttendanceRecord)
  | officeNotConfigured
  | outOfOfficeRadius (distance : Int) (allowedRadius : ℚ)
  | created (attendance : AttendanceRecord)
  deriving Repr, DecidableEq

/-- Controller `checkIn`: validate the body, reject a duplicate for `(userId, today)`
with a status-dependent message, geofence Office mode against the active
office, and otherwise create the day's record (WFH stores the coordinates
as checkout anchor with the fixed 100 m radius). -/
def checkIn (dist : DistanceFn) (store : List AttendanceRecord)
    (offices : List OfficeLocation) (uid : Nat) (today : String)
    (latitude longitude : Option ℚ) (workMode : String) (now : Int) :
    List AttendanceRecord × CheckInResult :=
  if !truthyNum latitude || !truthyNum longitude then (store, .missingLocation)
  else if !(["Office", "WFH"].contains workMode) then (store, .invalidWorkMode)
  else
    match findAttendance store uid today with
    | some existing =>
      (store, .alreadyCheckedIn
        (if existing.status = .checkedOut then msgAlreadyCompleted
         else msgAlreadyCheckedIn) existing)
    | none =>
      let lat := latitude.getD 0
      let lng := longitude.getD 0
      let created : List AttendanceRecord × CheckInResult :=
        let att : AttendanceRecord :=
          { userId := uid,
            workMode := if workMode = "Office" then .office else .wfh,
            checkInTime := now,
            checkInLocation := ⟨lng, lat⟩,
            date := today,
            status := .checkedIn,
            wfhCheckoutRadius := 100 }
        (store ++ [att], .created att)
      if workMode = "Office" then
        match findActiveOffice offices with
        | none => (store, .officeNotConfigured)
        | some office =>
          let d := dist lat lng office.center.lat office.center.lng
          if office.radius < d then
            (store, .outOfOfficeRadius (jsRound d) office.radius)
          else created
      else created

/-- Outcome of `checkOut` (attendance controller, `src/unnamed/part_007`). -/
inductive CheckOutResult where
  | missingLocation
  | notCheckedIn
  | alreadyCheckedOut (attendance : AttendanceRecord)
  | officeNotConfigured
  | outOfOfficeRadius (distance : Int) (allowedRadius : ℚ)
  | outOfWfhRadius (distance : Int) (allowedRadius : ℚ)
  | success (attendance : AttendanceRecord)
  deriving Repr, DecidableEq

/-- Controller `checkOut`: find the open record for `(userId, today)`; Office mode
re-validates against the current active office, WFH validates against the
record's stored check-in anchor and stored radius (`wfhCheckoutRadius ||
100`); on success set checkout time, checkout location, working hours and
flip the status in one save. -/
def checkOut (dist : DistanceFn) (store : List AttendanceRecord)
    (offices : List OfficeLocation) (uid : Nat) (today : String)
    (latitude longitude : Option ℚ) (now : Int) :
    List AttendanceRecord × CheckOutResult :=
  if !truthyNum latitude || !truthyNum longitude then (store, .missingLocation)
  else
    match findAttendance store uid today with
    | none => (store, .notCheckedIn)
    | some att =>
      if att.status = .checkedOut then (store, .alreadyCheckedOut att)
      else
        let lat := latitude.getD 0
        let lng := longitude.getD 0
        let geoFailure : Option CheckOutResult :=
          match att.workMode with
          | .office =>
            match findActiveOffice offices with
            | none => some .officeNotConfigured
            | some office =>
              let d := dist lat lng office.center.lat office.center.lng
              if office.radius < d then
                some (.outOfOfficeRadius (jsRound d) office.radius)
              else none
          | .wfh =>
            let d := dist lat lng att.checkInLocation.lat att.checkInLocation.lng
            let allowedRadius :=
              if att.wfhCheckoutRadius = 0 then 100 else att.wfhCheckoutRadius
            if allowedRadius < d then
              some (.outOfWfhRadius (jsRound d) allowedRadius)
            else none
        match geoFailure with
        | some r => (store, r)
        | none =>
          let att' : AttendanceRecord :=
            { att with
                checkOutTime := some now,
                checkOutLocation := some ⟨lng, lat⟩,
                workingHours := calculateWorkingHours att.checkInTime now,
                status := .checkedOut }
          (replaceAttendance uid today att' store, .success att')

/-- The fields of a device entry other than `lastUsedAt`; used to state
that refreshing a device touches nothing else. -/
def deviceStatic (d : Device) : String × String × String × String × String × Int :=
  (d.deviceId, d.deviceName, d.platform, d.brand, d.model, d.addedAt)

/-- Concrete distance evaluator for witnesses. -/
def exDist : DistanceFn := fun _ _ _ _ => 0

/-- Concrete hashing collaborator for witnesses. -/
def exHash (s : String) : String := "h:" ++ s

/-- Concrete device entry for witnesses. -/
def exDevice (i : String) : Device :=
  { deviceId := i, deviceName := "D", platform := "android", brand := "",
    model := "", addedAt := 0, lastUsedAt := 0 }

/-- Concrete user with clean lockout state for witnesses. -/
def exUser0 : User :=
  { name := "Ann", email := "ann@example.com", password := "bcrypt-hash" }

/-- Concrete user with a full device list for witnesses. -/
def exUser3 : User :=
  { exUser0 with devices := [exDevice "d1", exDevice "d2", exDevice "d3"] }

/-- Concrete device descriptor for witnesses. -/
def exDi (i : String) : DeviceInfo := { deviceId := some i }

/-- Concrete open WFH attendance record for witnesses. -/
def exRecordWfh : AttendanceRecord :=
  { userId := 1, workMode := .wfh, checkInTime := 0,
    checkInLocation := ⟨10, 20⟩, date := "2026-01-02" }

/-- Concrete active office for witnesses. -/
def exOffice : OfficeLocation := { center := ⟨0, 0⟩ }

/-- The record `exRecordWfh` after checking out at `t = 3600000` (one hour
after check-in) at coordinates `(3, 4)`. -/
def exRecordWfhOut : AttendanceRecord :=
  { exRecordWfh with
      checkOutTime := some 3600000,
      checkOutLocation := some ⟨4, 3⟩,
      workingHours := 1,
      status := .checkedOut }

/-- Concrete user whose password changed at `t = 1500 ms` (inside second
number 1), used against a token issued at `iat = 1 s`. -/
def exUserPca : User := { exUser0 with passwordChangedAt := some 1500 }

/-- Concrete user holding an unexpired reset-token hash for witnesses. -/
def exUserReset : User :=
  { exUser0 with
      passwordResetToken := some (exHash "tok"),
      passwordResetExpires := some 1000,
      loginAttempts := 5,
      lockUntil := some 999999 }

end AttendanceBackend

namespace AttendanceBackend

theorem updateFirstLastUsed_static (id : String) (now : Int) (ds : List Device) :
    (updateFirstLastUsed id now ds).map deviceStatic = ds.map deviceStatic := by
  induction ds with
  | nil => rfl
  | cons d ds ih =>
    by_cases h : d.deviceId = id <;>
      simp [updateFirstLastUsed, h, deviceStatic, ih]

theorem updateFirstLastUsed_length (id : String) (now : Int) (ds : List Device) :
    (updateFirstLastUsed id now ds).length = ds.length := by
  induction ds with
  | nil => rfl
  | cons d ds ih =>
    by_cases h : d.deviceId = id <;> simp [updateFirstLastUsed, h, ih]

/-- C6: after every `matchPassword` operation, `lockUntil` is set iff the
failed-attempt counter has reached `MAX_LOGIN_ATTEMPTS = 5`; a successful
comparison resets the counter, clears the lock and stamps `lastLoginAt`
in the one atomic update. -/
theorem matchPassword_lock_invariant (u : User) (isMatch : Bool) (now : Int) :
    (((u.matchPassword isMatch now).1.lockUntil ≠ none) ↔
        MAX_LOGIN_ATTEMPTS ≤ (u.matchPassword isMatch now).1.loginAttempts) ∧
    (isMatch = true →
        (u.matchPassword isMatch now).1 =
          { u with loginAttempts := 0, lockUntil := none,
                   lastLoginAt := some now }) := by
  constructor
  · cases isMatch with
    | true => simp [User.matchPassword, MAX_LOGIN_ATTEMPTS]
    | false =>
      simp only [User.matchPassword, Bool.false_eq_true, if_false]
      by_cases h : MAX_LOGIN_ATTEMPTS ≤ u.loginAttempts + 1 <;> simp [h]
  · intro h
    subst h
    simp [User.matchPassword]

/-- Witness for the lock invariant: a correct password after 3 failures
resets the counter and clears the lock. -/
theorem matchPassword_lock_invariant_witness :
    (true = true) ∧
    (User.matchPassword
        { exUser0 with loginAttempts := 3, lockUntil := none } true 77).1 =
      { exUser0 with
          loginAttempts := 0, lockUntil := none, lastLoginAt := some 77 } := by
  refine ⟨rfl, ?_⟩
  have h := (matchPassword_lock_invariant
    { exUser0 with loginAttempts := 3, lockUntil := none } true 77).2 rfl
  simpa using h

theorem updateFirstLastUsed_refreshes (id : String) (now : Int) :
    ∀ ds : List Device, ds.any (fun d => d.deviceId = id) = true →
      ∃ d ∈ updateFirstLastUsed id now ds, d.deviceId = id ∧ d.lastUsedAt = now := by
  intro ds
  induction ds with
  | nil =>
    intro h
    simp at h
  | cons d ds ih =>
    intro h
    by_cases hd : d.deviceId = id
    · exact ⟨{ d with lastUsedAt := now }, by simp [updateFirstLastUsed, hd],
        hd, rfl⟩
    · have htail : ds.any (fun e => e.deviceId = id) = true := by
        rw [List.any_cons] at h
        simpa [hd] using h
      obtain ⟨e, hmem, he⟩ := ih htail
      exact ⟨e, by simp [updateFirstLastUsed, hd, hmem], he⟩

/-- C3: the full `registerDevice` postcondition: missing identifier is a
no-op; a known identifier only refreshes that entry's `lastUsedAt` and
does not grow the list; a new identifier against a full list of 3 is
refused with `isNew = true, limitReached = true` and the list unchanged;
otherwise the entry is appended with `isNew = true, limitReached = false`;
and the list length never exceeds 3. -/
theorem registerDevice_post (u : User) (di : DeviceInfo) (now : Int)
    (hlen : u.devices.length ≤ 3) :
    (hasDeviceId (some di) = false →
        u.registerDevice (some di) now = (u, ⟨false, false⟩)) ∧
    (∀ id, di.deviceId = some id → id ≠ "" →
        (u.devices.any (fun d => d.deviceId = id) = true →
            (u.registerDevice (some di) now).2 = ⟨false, false⟩ ∧
            (u.registerDevice (some di) now).1.devices.map deviceStatic =
              u.devices.map deviceStatic ∧
            (u.registerDevice (some di) now).1.devices.length =
              u.devices.length ∧
            ∃ d ∈ (u.registerDevice (some di) now).1.devices,
              d.deviceId = id ∧ d.lastUsedAt = now) ∧
        (u.devices.any (fun d => d.deviceId = id) = false →
            (u.devices.length = 3 →
                u.registerDevice (some di) now = (u, ⟨true, true⟩)) ∧
            (u.devices.length < 3 →
                (u.registerDevice (some di) now).2 = ⟨true, false⟩ ∧
                ∃ d, d.deviceId = id ∧
                  (u.registerDevice (some di) now).1.devices =
                    u.devices ++ [d]))) ∧
    (u.registerDevice (some di) now).1.devices.length ≤ 3 := by
  refine ⟨?_, ?_, ?_⟩
  · intro h
    match hdi : di.deviceId with
    | none => simp [User.registerDevice, hdi]
    | some id =>
      simp [hasDeviceId, hdi] at h
      simp [User.registerDevice, hdi, h]
  · intro id hdi hne
    constructor
    · intro hmem
      refine ⟨?_, ?_, ?_, ?_⟩ <;>
        simp [User.registerDevice, hdi, hne, hmem, updateFirstLastUsed_static,
          updateFirstLastUsed_length]
      obtain ⟨d, hdmem, hd1, hd2⟩ := updateFirstLastUsed_refreshes id now
        u.devices hmem
      exact ⟨d, hdmem, hd1, hd2⟩
    · intro hmem
      constructor
      · intro h3
        simp [User.registerDevice, hdi, hne, hmem, MAX_DEVICES, h3]
      · intro hlt
        have hnotle : ¬ MAX_DEVICES ≤ u.devices.length := by
          simp [MAX_DEVICES]; omega
        refine ⟨by simp [User.registerDevice, hdi, hne, hmem, hnotle], ?_⟩
        refine ⟨⟨id, orDefault di.deviceName "Unknown Device",
          orDefault di.platform "unknown", orDefault di.brand "",
          orDefault di.model "", now, now⟩, rfl, ?_⟩
        simp [User.registerDevice, hdi, hne, hmem, hnotle]
  · match hdi : di.deviceId with
    | none => simpa [User.registerDevice, hdi] using hlen
    | some id =>
      by_cases hne : id = ""
      · simpa [User.registerDevice, hdi, hne] using hlen
      · by_cases hmem : u.devices.any (fun d => d.deviceId = id)
        · simpa [User.registerDevice, hdi, hne, hmem,
            updateFirstLastUsed_length] using hlen
        · by_cases hfull : MAX_DEVICES ≤ u.devices.length
          · simpa [User.registerDevice, hdi, hne, hmem, hfull] using hlen
          · simp only [MAX_DEVICES, not_le] at hfull
            simp [User.registerDevice, hdi, hne, hmem, MAX_DEVICES, hfull,
              Nat.not_le.mpr hfull]
            omega

/-- Witness for the `registerDevice` postcondition: a 4th distinct device
against a full list is refused and the list stays at 3 entries. -/
theorem registerDevice_post_witness :
    exUser3.devices.length ≤ 3 ∧
    exUser3.registerDevice (some (exDi "d4")) 50 = (exUser3, ⟨true, true⟩) := by
  have h := registerDevice_post exUser3 (exDi "d4") 50 (by decide)
  refine ⟨by decide, ?_⟩
  have h2 := (((h.2.1) "d4" rfl (by decide)).2 (by decide)).1 (by decide)
  exact h2

theorem loginUser_locked (u : User) (di : DeviceInfo) (b : Bool) (now : Int)
    (hdi : hasDeviceId (some di) = true) (hA : u.isActive = true)
    (hlocked : u.isLocked now = true) :
    loginUser (some u) true true (some di) b now =
      (some u, .accountLocked (jsCeilDiv ((u.lockUntil.getD 0) - now) 60000)) := by
  simp [loginUser, hdi, hA, hlocked]

/-- C2: from a clean lockout state, 5 consecutive failed password
verifications leave `lockUntil = t5 + 30 min` and a counter of 5, make
`isLocked` true anywhere inside the lock window, and a 6th login attempt
inside the window is rejected with ACCOUNT_LOCKED before the password is
even consulted (the outcome is the same for any comparison result `b`),
leaving the persisted state untouched. -/
theorem lockout_after_five_failures (u0 : User) (di : DeviceInfo)
    (t1 t2 t3 t4 t5 t6 : Int) (b : Bool)
    (h0 : u0.loginAttempts = 0) (hA : u0.isActive = true)
    (hdi : hasDeviceId (some di) = true)
    (hwin : t6 < t5 + LOCK_DURATION_MS) (hnz : t5 + LOCK_DURATION_MS ≠ 0) :
    (((((u0.matchPassword false t1).1.matchPassword false t2).1.matchPassword
          false t3).1.matchPassword false t4).1.matchPassword false t5).1.lockUntil =
        some (t5 + LOCK_DURATION_MS) ∧
    (((((u0.matchPassword false t1).1.matchPassword false t2).1.matchPassword
          false t3).1.matchPassword false t4).1.matchPassword false t5).1.loginAttempts =
        5 ∧
    User.isLocked
        (((((u0.matchPassword false t1).1.matchPassword false t2).1.matchPassword
          false t3).1.matchPassword false t4).1.matchPassword false t5).1 t6 = true ∧
    loginUser
        (some (((((u0.matchPassword false t1).1.matchPassword false
          t2).1.matchPassword false t3).1.matchPassword false t4).1.matchPassword
          false t5).1)
        true true (some di) b t6 =
      (some (((((u0.matchPassword false t1).1.matchPassword false
          t2).1.matchPassword false t3).1.matchPassword false t4).1.matchPassword
          false t5).1,
        .accountLocked (jsCeilDiv (t5 + LOCK_DURATION_MS - t6) 60000)) := by
  have h5 : (((((u0.matchPassword false t1).1.matchPassword false
      t2).1.matchPassword false t3).1.matchPassword false t4).1.matchPassword
      false t5).1 =
      { u0 with loginAttempts := 5, lockUntil := some (t5 + LOCK_DURATION_MS) } := by
    simp [User.matchPassword, MAX_LOGIN_ATTEMPTS, h0]
  rw [h5]
  have hlock : User.isLocked
      { u0 with loginAttempts := 5, lockUntil := some (t5 + LOCK_DURATION_MS) } t6 =
      true := by
    simp [User.isLocked, hwin, hnz]
  refine ⟨rfl, rfl, hlock, ?_⟩
  rw [loginUser_locked _ di b t6 hdi (by simpa using hA) hlock]
  rfl

/-- Witness for the lockout theorem at concrete times 1..6 and a concrete
account. -/
theorem lockout_after_five_failures_witness :
    exUser0.loginAttempts = 0 ∧ exUser0.isActive = true ∧
    hasDeviceId (some (exDi "d1")) = true ∧
    ((6 : Int) < 5 + LOCK_DURATION_MS) ∧ ((5 : Int) + LOCK_DURATION_MS ≠ 0) ∧
    loginUser
        (some (((((exUser0.matchPassword false 1).1.matchPassword false
          2).1.matchPassword false 3).1.matchPassword false 4).1.matchPassword
          false 5).1)
        true true (some (exDi "d1")) true 6 =
      (some (((((exUser0.matchPassword false 1).1.matchPassword false
          2).1.matchPassword false 3).1.matchPassword false 4).1.matchPassword
          false 5).1,
        .accountLocked (jsCeilDiv (5 + LOCK_DURATION_MS - 6) 60000)) := by
  have h := lockout_after_five_failures exUser0 (exDi "d1") 1 2 3 4 5 6 true
    rfl rfl (by decide) (by decide) (by decide)
  exact ⟨rfl, rfl, by decide, by decide, by decide, h.2.2.2⟩

/-- C9: a login with a correct password and a 4th distinct device id
fails with MAX_DEVICES_REACHED and leaves the device list untouched, but
the preceding successful password verification has already reset the
failed-attempt counter, cleared the lock and stamped `lastLoginAt` in the
persisted account. -/
theorem login_maxdevices_still_resets_lockout (u : User) (di : DeviceInfo)
    (id : String) (now : Int)
    (hA : u.isActive = true) (hNL : u.isLocked now = false)
    (hid : di.deviceId = some id) (hne : id ≠ "")
    (hnew : u.devices.any (fun d => d.deviceId = id) = false)
    (hfull : u.devices.length = 3) :
    loginUser (some u) true true (some di) true now =
      (some { u with
          loginAttempts := 0, lockUntil := none, lastLoginAt := some now },
        .maxDevicesReached u.devices) := by
  have hdi : hasDeviceId (some di) = true := by simp [hasDeviceId, hid, hne]
  simp only [loginUser, hdi, Bool.not_true, Bool.false_or, Bool.or_self,
    Bool.false_eq_true, if_false, hA, hNL]
  simp [User.matchPassword, User.registerDevice, hid, hne, hnew, hfull,
    MAX_DEVICES, hA]

/-- Witness for the MAX_DEVICES frame effect at a concrete full account. -/
theorem login_maxdevices_still_resets_lockout_witness :
    exUser3.isActive = true ∧ exUser3.isLocked 9 = false ∧
    (exDi "d4").deviceId = some "d4" ∧ ("d4" ≠ "") ∧
    exUser3.devices.any (fun d => d.deviceId = "d4") = false ∧
    exUser3.devices.length = 3 ∧
    loginUser (some exUser3) true true (some (exDi "d4")) true 9 =
      (some { exUser3 with
          loginAttempts := 0, lockUntil := none, lastLoginAt := some 9 },
        .maxDevicesReached exUser3.devices) := by
  refine ⟨rfl, by decide, rfl, by decide, by decide, by decide, ?_⟩
  exact login_maxdevices_still_resets_lockout exUser3 (exDi "d4") "d4" 9
    rfl (by decide) rfl (by decide) (by decide) (by decide)

/-- C1: when a record already exists for `(userId, today)` — open or
already checked-out — a well-formed `checkIn` call fails with
ALREADY_CHECKED_IN, carrying the distinct already-checked-out message when
the record is closed, and the store is returned unchanged (no second
record for the day). -/
theorem checkin_duplicate_rejected (dist : DistanceFn)
    (store : List AttendanceRecord) (offices : List OfficeLocation)
    (uid : Nat) (today : String) (lat lng : ℚ) (wm : String) (now : Int)
    (rec : AttendanceRecord)
    (hlat : lat ≠ 0) (hlng : lng ≠ 0)
    (hwm : wm = "Office" ∨ wm = "WFH")
    (hfind : findAttendance store uid today = some rec) :
    checkIn dist store offices uid today (some lat) (some lng) wm now =
      (store, .alreadyCheckedIn
        (if rec.status = .checkedOut then msgAlreadyCompleted
         else msgAlreadyCheckedIn) rec) := by
  have hcontains : (["Office", "WFH"].contains wm) = true := by
    rcases hwm with h | h <;> simp [h]
  simp [checkIn, truthyNum, hlat, hlng, hcontains, hfind]
  intro h
  tauto

/-- Witness for the duplicate check-in rejection on a store holding one
open WFH record. -/
theorem checkin_duplicate_rejected_witness :
    ((10 : ℚ) ≠ 0) ∧ ((20 : ℚ) ≠ 0) ∧
    ("WFH" = "Office" ∨ "WFH" = "WFH") ∧
    findAttendance [exRecordWfh] 1 "2026-01-02" = some exRecordWfh ∧
    checkIn exDist [exRecordWfh] [exOffice] 1 "2026-01-02"
        (some 10) (some 20) "WFH" 7 =
      ([exRecordWfh], .alreadyCheckedIn msgAlreadyCheckedIn exRecordWfh) := by
  refine ⟨by norm_num, by norm_num, Or.inr rfl, by decide, ?_⟩
  have h := checkin_duplicate_rejected exDist [exRecordWfh] [exOffice] 1
    "2026-01-02" 10 20 "WFH" 7 exRecordWfh (by norm_num) (by norm_num)
    (Or.inr rfl) (by decide)
  simpa [exRecordWfh] using h

/-- C4: on an open WFH record, `checkOut` geofences against the record's
own stored check-in anchor and its own stored nonzero
`wfhCheckoutRadius`: the result is identical for any two office
configurations, the call fails OUT_OF_WFH_RADIUS with the rounded measured
distance and the stored radius when the distance exceeds it, and succeeds
otherwise. -/
theorem wfh_checkout_anchored_to_record (dist : DistanceFn)
    (store : List AttendanceRecord) (offices offices' : List OfficeLocation)
    (uid : Nat) (today : String) (lat lng : ℚ) (now : Int)
    (rec : AttendanceRecord)
    (hlat : lat ≠ 0) (hlng : lng ≠ 0)
    (hfind : findAttendance store uid today = some rec)
    (hwfh : rec.workMode = .wfh) (hopen : rec.status = .checkedIn)
    (hrad : rec.wfhCheckoutRadius ≠ 0) :
    checkOut dist store offices uid today (some lat) (some lng) now =
      checkOut dist store offices' uid today (some lat) (some lng) now ∧
    (rec.wfhCheckoutRadius <
        dist lat lng rec.checkInLocation.lat rec.checkInLocation.lng →
      checkOut dist store offices uid today (some lat) (some lng) now =
        (store, .outOfWfhRadius
          (jsRound (dist lat lng rec.checkInLocation.lat
            rec.checkInLocation.lng))
          rec.wfhCheckoutRadius)) ∧
    (¬ rec.wfhCheckoutRadius <
        dist lat lng rec.checkInLocation.lat rec.checkInLocation.lng →
      (checkOut dist store offices uid today (some lat) (some lng) now).2 =
        .success { rec with
            checkOutTime := some now,
            checkOutLocation := some ⟨lng, lat⟩,
            workingHours := calculateWorkingHours rec.checkInTime now,
            status := .checkedOut }) := by
  have hstat : (rec.status = AttStatus.checkedOut) = False := by
    simp [hopen]
  refine ⟨?_, ?_, ?_⟩
  · simp [checkOut, truthyNum, hlat, hlng, hfind, hstat, hwfh]
  · intro h
    simp [checkOut, truthyNum, hlat, hlng, hfind, hstat, hwfh, hrad, h]
  · intro h
    simp [checkOut, truthyNum, hlat, hlng, hfind, hstat, hwfh, hrad, h]

/-- Witness for the WFH checkout anchoring: with a zero distance
evaluator the call succeeds identically under two different office
configurations. -/
theorem wfh_checkout_anchored_to_record_witness :
    ((3 : ℚ) ≠ 0) ∧ ((4 : ℚ) ≠ 0) ∧
    findAttendance [exRecordWfh] 1 "2026-01-02" = some exRecordWfh ∧
    exRecordWfh.workMode = .wfh ∧ exRecordWfh.status = .checkedIn ∧
    exRecordWfh.wfhCheckoutRadius ≠ 0 ∧
    checkOut exDist [exRecordWfh] [exOffice] 1 "2026-01-02"
        (some 3) (some 4) 3600000 =
      checkOut exDist [exRecordWfh] [] 1 "2026-01-02"
        (some 3) (some 4) 3600000 := by
  refine ⟨by norm_num, by norm_num, by decide, rfl, rfl, by decide, ?_⟩
  exact (wfh_checkout_anchored_to_record exDist [exRecordWfh] [exOffice] []
    1 "2026-01-02" 3 4 3600000 exRecordWfh (by norm_num) (by norm_num)
    (by decide) rfl rfl (by decide)).1

/-- C5: every successful `checkOut` sets, in the one saved update, the
checkout timestamp to `now`, the checkout location to the supplied
coordinates, the status to checked-out, and `workingHours` to the elapsed
check-in-to-checkout time in fractional hours rounded to 2 decimal places
(`Math.round(h * 100) / 100`), writing the updated record back over the
day's record. -/
theorem checkout_success_postcondition (dist : DistanceFn)
    (store store' : List AttendanceRecord) (offices : List OfficeLocation)
    (uid : Nat) (today : String) (lat lng : Option ℚ) (now : Int)
    (rec rec' : AttendanceRecord)
    (hfind : findAttendance store uid today = some rec)
    (hres : checkOut dist store offices uid today lat lng now =
      (store', .success rec')) :
    rec' = { rec with
        checkOutTime := some now,
        checkOutLocation := some ⟨lng.getD 0, lat.getD 0⟩,
        workingHours := calculateWorkingHours rec.checkInTime now,
        status := .checkedOut } ∧
    rec'.workingHours =
      (jsRound (((now - rec.checkInTime : Int) : ℚ) / 3600000 * 100) : ℚ) / 100 ∧
    store' = replaceAttendance uid today rec' store := by
  simp only [checkOut, hfind] at hres
  split at hres
  · simp at hres
  · split at hres
    · simp at hres
    · split at hres
      · rename_i r heq
        rw [Prod.mk.injEq] at hres
        obtain ⟨hs, hr⟩ := hres
        subst hr
        split at heq
        · split at heq
          · simp at heq
          · split at heq <;> simp at heq
        · split at heq <;> simp at heq
      · rw [Prod.mk.injEq] at hres
        obtain ⟨hstore, hrec⟩ := hres
        rw [CheckOutResult.success.injEq] at hrec
        subst hrec
        refine ⟨rfl, ?_, hstore.symm⟩
        simp [calculateWorkingHours]
        norm_num

/-- Witness for the checkout postcondition: checking out one hour after a
WFH check-in yields `workingHours = 1` and writes the closed record back. -/
theorem checkout_success_postcondition_witness :
    findAttendance [exRecordWfh] 1 "2026-01-02" = some exRecordWfh ∧
    checkOut exDist [exRecordWfh] [exOffice] 1 "2026-01-02"
        (some 3) (some 4) 3600000 =
      ([exRecordWfhOut], .success exRecordWfhOut) ∧
    exRecordWfhOut.workingHours =
      (jsRound (((3600000 - exRecordWfh.checkInTime : Int) : ℚ) / 3600000 * 100) :
        ℚ) / 100 := by
  have hfind : findAttendance [exRecordWfh] 1 "2026-01-02" = some exRecordWfh := by
    decide
  have hcw : calculateWorkingHours 0 3600000 = 1 := by
    norm_num [calculateWorkingHours, jsRound]
  have hres : checkOut exDist [exRecordWfh] [exOffice] 1 "2026-01-02"
      (some 3) (some 4) 3600000 = ([exRecordWfhOut], .success exRecordWfhOut) := by
    simp [checkOut, findAttendance, truthyNum, exRecordWfh, exRecordWfhOut,
      exDist, replaceAttendance, hcw]
    norm_num
  have h := checkout_success_postcondition exDist [exRecordWfh] [exRecordWfhOut]
    [exOffice] 1 "2026-01-02" (some 3) (some 4) 3600000 exRecordWfh
    exRecordWfhOut hfind hres
  exact ⟨hfind, hres, h.2.1⟩

/-- C8 counterexample: the account's password changed at 1500 ms, which
is strictly later than the token's issue time of 1 s (= 1000 ms), yet the
gate authorizes the request instead of rejecting it with PASSWORD_CHANGED,
because `changedPasswordAfter` truncates the change time to whole seconds
(`parseInt(1500 / 1000) = 1`, and `1 < 1` fails). -/
theorem protect_passwordChanged_counterexample :
    exUserPca.passwordChangedAt = some 1500 ∧
    (1 : Int) * 1000 < 1500 ∧
    protectChecks (some exUserPca) 1 2000 ≠ .passwordChanged ∧
    protectChecks (some exUserPca) 1 2000 = .authorized := by
  refine ⟨rfl, by norm_num, ?_, ?_⟩ <;>
    simp [protectChecks, exUserPca, exUser0, User.isLocked,
      User.changedPasswordAfter, jsTruncDiv]

/-- C8 amended: for an active, unlocked account with a recorded
password-change time `pca` (ms), the gate rejects with PASSWORD_CHANGED
iff the token's issued-at (seconds) is nonzero and strictly smaller than
`pca` truncated to whole seconds; consequently any token issued at or
after the change (`pca ≤ iat * 1000`) is authorized, but so is a token
issued inside the very second of the change. -/
theorem protect_passwordChanged_iff (u : User) (iat now pca : Int)
    (hA : u.isActive = true) (hNL : u.isLocked now = false)
    (hpca : u.passwordChangedAt = some pca) :
    (protectChecks (some u) iat now = .passwordChanged ↔
        (iat ≠ 0 ∧ iat < jsTruncDiv pca 1000)) ∧
    (pca ≤ iat * 1000 → protectChecks (some u) iat now = .authorized) := by
  have hred : protectChecks (some u) iat now =
      (if iat ≠ 0 ∧ iat < jsTruncDiv pca 1000 then .passwordChanged
       else .authorized) := by
    simp [protectChecks, hA, hNL, User.changedPasswordAfter, hpca]
  constructor
  · rw [hred]
    split <;> simp_all
  · intro hle
    have hbound : jsTruncDiv pca 1000 ≤ iat := by
      unfold jsTruncDiv
      split <;> omega
    rw [hred]
    split
    · omega
    · rfl

/-- Witness for the amended PASSWORD_CHANGED rule: a token issued at
second 2 against a change at 1500 ms is authorized. -/
theorem protect_passwordChanged_iff_witness :
    exUserPca.isActive = true ∧ exUserPca.isLocked 2000 = false ∧
    exUserPca.passwordChangedAt = some 1500 ∧
    ((1500 : Int) ≤ 2 * 1000) ∧
    protectChecks (some exUserPca) 2 2000 = .authorized := by
  refine ⟨rfl, by decide, rfl, by norm_num, ?_⟩
  exact (protect_passwordChanged_iff exUserPca 2 2000 1500 rfl (by decide)
    rfl).2 (by norm_num)

/-- C10: outside development mode, `forgotPassword` produces exactly the
same 200 response with the generic message whether or not the email
belongs to an account, and never includes the raw reset token; the raw
token can only ever appear in the response when `NODE_ENV` is
`development`. -/
theorem forgot_password_no_enumeration (hashTok : String → String)
    (env email rawToken : String) (u : User) (now : Int)
    (henv : env ≠ "development") (hemail : email ≠ "") :
    (forgotPassword hashTok env (some email) (some u) rawToken now).1 =
      (forgotPassword hashTok env (some email) none rawToken now).1 ∧
    (forgotPassword hashTok env (some email) (some u) rawToken now).1 =
      ⟨200, true, forgotGenericMessage, none, none⟩ ∧
    (∀ (env' : String) (lookup : Option User),
        (forgotPassword hashTok env' (some email) lookup rawToken now).1.resetToken
          ≠ none →
        env' = "development") := by
  refine ⟨?_, ?_, ?_⟩
  · simp [forgotPassword, hemail, henv]
  · simp [forgotPassword, hemail, henv]
  · intro env' lookup h
    by_cases hd : env' = "development"
    · exact hd
    · exfalso
      cases lookup <;> simp [forgotPassword, hemail, hd] at h

/-- Witness for the enumeration-resistance of `forgotPassword` in
production mode. -/
theorem forgot_password_no_enumeration_witness :
    ("production" ≠ "development") ∧ ("ann@example.com" ≠ "") ∧
    (forgotPassword exHash "production" (some "ann@example.com") (some exUser0)
        "tok" 0).1 =
      (forgotPassword exHash "production" (some "ann@example.com") none
        "tok" 0).1 := by
  refine ⟨by decide, by decide, ?_⟩
  exact (forgot_password_no_enumeration exHash "production" "ann@example.com"
    "tok" exUser0 0 (by decide) (by decide)).1

theorem resetTokenMatches_token (h : String) (now : Int) (v : User)
    (hv : resetTokenMatches h now v = true) :
    v.passwordResetToken = some h := by
  unfold resetTokenMatches at hv
  rw [Bool.and_eq_true] at hv
  simpa using hv.1

theorem resetTokenMatches_false_of_ne (h : String) (now : Int) (v : User)
    (hv : v.passwordResetToken ≠ some h) :
    resetTokenMatches h now v = false := by
  unfold resetTokenMatches
  simp [hv]

theorem countP_resetToken_cons (h : String) (v : User) (vs : List User)
    (hv : v.passwordResetToken = some h) :
    (v :: vs).countP (fun w => decide (w.passwordResetToken = some h)) =
      vs.countP (fun w => decide (w.passwordResetToken = some h)) + 1 := by
  rw [List.countP_cons]
  simp [hv]

theorem findResetUser_none_after_replace (h : String) (now now2 : Int)
    (u' : User) (hu' : u'.passwordResetToken = none) :
    ∀ users : List User,
      (findResetUser users h now).isSome = true →
      users.countP (fun v => decide (v.passwordResetToken = some h)) ≤ 1 →
      findResetUser
        (replaceFirstMatching (resetTokenMatches h now) u' users) h now2 =
        none := by
  intro users
  induction users with
  | nil =>
    intro hs _
    simp [findResetUser] at hs
  | cons v vs ih =>
    intro hs hcount
    by_cases pv : resetTokenMatches h now v = true
    · have hv : v.passwordResetToken = some h := resetTokenMatches_token h now v pv
      have hvs0 : vs.countP (fun w => decide (w.passwordResetToken = some h)) = 0 := by
        rw [countP_resetToken_cons h v vs hv] at hcount
        omega
      have hall : ∀ w ∈ vs, ¬ (resetTokenMatches h now2 w = true) := by
        intro w hw
        have hwne : ¬ (w.passwordResetToken = some h) := by
          have h0 := List.countP_eq_zero.mp hvs0 w hw
          simpa using h0
        simp [resetTokenMatches_false_of_ne h now2 w hwne]
      have hu'm : resetTokenMatches h now2 u' = false :=
        resetTokenMatches_false_of_ne h now2 u' (by simp [hu'])
      have hrep : replaceFirstMatching (resetTokenMatches h now) u' (v :: vs) =
          u' :: vs := by
        simp only [replaceFirstMatching]
        rw [if_pos pv]
      rw [hrep, findResetUser, List.find?_cons_of_neg _ (by simp [hu'm])]
      exact List.find?_eq_none.mpr hall
    · rw [findResetUser, List.find?_cons_of_neg _ pv] at hs
      obtain ⟨w, hwfind⟩ := Option.isSome_iff_exists.mp hs
      have hwmem : w ∈ vs := List.mem_of_find?_eq_some hwfind
      have hwp : resetTokenMatches h now w = true := List.find?_some hwfind
      have hwtok : w.passwordResetToken = some h :=
        resetTokenMatches_token h now w hwp
      have hpos : 0 < vs.countP (fun v => decide (v.passwordResetToken = some h)) := by
        rw [List.countP_pos_iff]
        exact ⟨w, hwmem, by simp [hwtok]⟩
      have hvne : v.passwordResetToken ≠ some h := by
        intro hv
        rw [countP_resetToken_cons h v vs hv] at hcount
        omega
      have hvf : resetTokenMatches h now2 v = false :=
        resetTokenMatches_false_of_ne h now2 v hvne
      have hrep : replaceFirstMatching (resetTokenMatches h now) u' (v :: vs) =
          v :: replaceFirstMatching (resetTokenMatches h now) u' vs := by
        simp only [replaceFirstMatching]
        rw [if_neg pv]
      rw [hrep, findResetUser, List.find?_cons_of_neg _ (by simp [hvf])]
      have hcvs : vs.countP (fun v => decide (v.passwordResetToken = some h)) ≤ 1 := by
        rw [List.countP_cons] at hcount
        omega
      have htail := ih (by rw [findResetUser, hwfind]; rfl) hcvs
      rw [findResetUser] at htail
      exact htail

/-- C7: a reset token is consumable exactly once: with a valid unexpired
token whose stored hash identifies a unique account, `resetPassword`
succeeds, storing the bcrypt hash of the new password through the shared
pre-save hashing hook, stamping `passwordChangedAt`, clearing the
reset-token hash and expiry and clearing the lockout state; replaying the
same raw token afterwards fails with INVALID_OR_EXPIRED_TOKEN, as does
any call whose hashed token matches no account with an unexpired stored
hash. -/
theorem reset_token_single_use (hashTok hashPw : String → String)
    (users : List User) (token pw1 pw2 : String) (now now2 : Int) (u : User)
    (htok : token ≠ "") (hpw1 : 6 ≤ pw1.length) (hpw2 : 6 ≤ pw2.length)
    (hfind : findResetUser users (hashTok token) now = some u)
    (huniq : users.countP
      (fun v => decide (v.passwordResetToken = some (hashTok token))) ≤ 1) :
    resetPassword hashTok hashPw users token pw1 now =
      (replaceFirstMatching (resetTokenMatches (hashTok token) now)
        (applyPasswordReset hashPw u pw1 now) users, .resetOk) ∧
    applyPasswordReset hashPw u pw1 now =
      { u with
          password := hashPw pw1, passwordChangedAt := some now,
          passwordResetToken := none, passwordResetExpires := none,
          loginAttempts := 0, lockUntil := none } ∧
    resetPassword hashTok hashPw
        (replaceFirstMatching (resetTokenMatches (hashTok token) now)
          (applyPasswordReset hashPw u pw1 now) users) token pw2 now2 =
      (replaceFirstMatching (resetTokenMatches (hashTok token) now)
        (applyPasswordReset hashPw u pw1 now) users, .invalidOrExpiredToken) ∧
    (∀ (t2 : String) (t3 : Int), t2 ≠ "" →
        (∀ v ∈ users, resetTokenMatches (hashTok t2) t3 v = false) →
        resetPassword hashTok hashPw users t2 pw2 t3 =
          (users, .invalidOrExpiredToken)) := by
  have hpw1ne : pw1 ≠ "" := by
    intro he
    rw [he] at hpw1
    simp at hpw1
  have hpw2ne : pw2 ≠ "" := by
    intro he
    rw [he] at hpw2
    simp at hpw2
  have hpw1len : ¬ pw1.length < 6 := by omega
  have hpw2len : ¬ pw2.length < 6 := by omega
  refine ⟨?_, rfl, ?_, ?_⟩
  · simp [resetPassword, htok, hpw1ne, hpw1len, hfind]
  · have hnone := findResetUser_none_after_replace (hashTok token) now now2
      (applyPasswordReset hashPw u pw1 now) rfl users
      (by simp [hfind]) huniq
    simp [resetPassword, htok, hpw2ne, hpw2len, hnone]
  · intro t2 t3 ht2 hall
    have hfn : findResetUser users (hashTok t2) t3 = none :=
      List.find?_eq_none.mpr (by
        intro v hv
        simp [hall v hv])
    simp [resetPassword, ht2, hpw2ne, hpw2len, hfn]

/-- Witness for the reset-token single-use property on a one-account
store: the replayed token is rejected. -/
theorem reset_token_single_use_witness :
    ("tok" ≠ "") ∧ (6 ≤ "secret1".length) ∧ (6 ≤ "secret2".length) ∧
    findResetUser [exUserReset] (exHash "tok") 500 = some exUserReset ∧
    resetPassword exHash exHash
        (resetPassword exHash exHash [exUserReset] "tok" "secret1" 500).1
        "tok" "secret2" 600 =
      ((resetPassword exHash exHash [exUserReset] "tok" "secret1" 500).1,
        .invalidOrExpiredToken) := by
  have h := reset_token_single_use exHash exHash [exUserReset] "tok"
    "secret1" "secret2" 500 600 exUserReset (by decide) (by decide)
    (by decide) (by decide) (by decide)
  refine ⟨by decide, by decide, by decide, by decide, ?_⟩
  rw [h.1]
  exact h.2.2.1

end AttendanceBackend
